import Mathlib

/-!
Shallow embedding of the `cargo-bay` read-only Docker/OCI registry caching
proxy (Rust), together with proofs about its specification.

The embedding follows the Rust sources:
  * `src/error.rs`    — error taxonomy and HTTP status mapping,
  * `src/auth.rs`     — claims, access predicate, token validation,
  * `src/config.rs`   — registry/repository configuration and resolution,
  * `src/cache.rs`    — the on-disk blob cache (metadata store, files,
                        `total_size` counter, `get`/`put`/`cleanup`),
  * `src/upstream.rs` — the upstream client (WWW-Authenticate parsing,
                        challenge-driven authentication, high-level GETs),
  * `src/main.rs`     — the axum router, and
  * `src/registry.rs` — the request handlers.

Rust side effects are made explicit: the sled metadata store and the blob
directory become association lists inside a `CacheState`, timestamps are
passed as explicit arguments (`Int` seconds for the cache, mirroring chrono
timestamps; `Nat` seconds for token expiry), and the network is an explicit
environment of responses (`UpstreamEnv`).  Fallible operations return
`Except ProxyError`.  Log statements that matter to the spec (`warn!` in the
cache self-heal path) are returned as a list of strings.
-/

/-! ## Error taxonomy (`src/error.rs`) -/

/-- `ProxyError` from `src/error.rs`.  The `Upstream` variant wraps a
`reqwest::Error`; here it carries that error's display string. -/
inductive ProxyError where
  | Unauthorized (msg : String)
  | Forbidden (msg : String)
  | NotFound (msg : String)
  | Upstream (msg : String)
  | Cache (msg : String)
  | Internal (msg : String)
deriving DecidableEq, Repr

/-- HTTP status assigned to each error kind by `IntoResponse for ProxyError`
(`src/error.rs`, lines 29-39). -/
def ProxyError.status : ProxyError → Nat
  | .Unauthorized _ => 401
  | .Forbidden _ => 403
  | .NotFound _ => 404
  | .Upstream _ => 502
  | .Cache _ => 500
  | .Internal _ => 500

/-- Message part of the error response, as selected in `into_response`
(`src/error.rs`).  Upstream transport messages are prefixed. -/
def ProxyError.message : ProxyError → String
  | .Unauthorized msg => msg
  | .Forbidden msg => msg
  | .NotFound msg => msg
  | .Upstream e => "Upstream registry error: " ++ e
  | .Cache msg => msg
  | .Internal msg => msg

/-- The JSON error envelope built in `into_response` (`src/error.rs`,
lines 41-46): `\x7b"errors":[\x7b"code":"PROXY_ERROR","message":<detail>\x7d]\x7d`. -/
def errorEnvelope (e : ProxyError) : String :=
  "\x7b\"errors\":[\x7b\"code\":\"PROXY_ERROR\",\"message\":\"" ++ e.message ++ "\"\x7d]\x7d"

/-! ## Rust string primitives

The Rust `str` operations the sources use (`starts_with`, `trim`,
`split`, `replace`, slicing), translated to execute on the character
list underlying a Lean string. -/

/-- Rust `str::starts_with` on characters: does `s` begin with `p`? -/
def charsStartWith : List Char → List Char → Bool
  | _, [] => true
  | [], _ :: _ => false
  | c :: cs, p :: ps => c == p && charsStartWith cs ps

/-- Rust `str::starts_with(p)`. -/
def strStartsWith (s p : String) : Bool :=
  charsStartWith s.toList p.toList

/-- Rust `str::trim`: strip leading and trailing whitespace. -/
def strTrim (s : String) : String :=
  String.mk
    (((s.toList.dropWhile Char.isWhitespace).reverse.dropWhile
      Char.isWhitespace).reverse)

/-- Rust `str::split(sep)` on characters; like Rust, the empty input
yields one empty piece. -/
def splitOnChar (sep : Char) : List Char → List (List Char)
  | [] => [[]]
  | c :: cs =>
      match splitOnChar sep cs, c == sep with
      | rest, true => [] :: rest
      | [], false => [[c]]
      | r :: rs, false => (c :: r) :: rs

/-! ## Claims and the access predicate (`src/auth.rs`) -/

/-- `AccessLevel` from `src/auth.rs` (lines 19-24). -/
inductive AccessLevel where
  | All
  | Repositories (repos : List String)
deriving DecidableEq, Repr

/-- `Claims` from `src/auth.rs` (lines 12-17).  `exp : Option<usize>`
becomes `Option Nat`. -/
structure Claims where
  sub : String
  exp : Option Nat
  access : AccessLevel
deriving DecidableEq, Repr

/-- `AccessLevel::can_access` from `src/auth.rs` (lines 27-34):
`All` grants everything; `Repositories repos` grants `repository` iff some
`r` in the list satisfies `repository == r` or
`repository.starts_with(format!("\x7b\x7d/", r))`. -/
def AccessLevel.can_access : AccessLevel → String → Bool
  | .All, _ => true
  | .Repositories repos, repository =>
      repos.any fun r => repository == r || strStartsWith repository (r ++ "/")

/-- `check_repository_access` from `src/auth.rs` (lines 81-90). -/
def check_repository_access (claims : Claims) (repository : String) :
    Except ProxyError Unit :=
  if claims.access.can_access repository then
    .ok ()
  else
    .error (.Forbidden ("Access denied to repository: " ++ repository))

/-- Claim C1: `can_access` is true under `All` for every repository; under
`Repositories L` it is true iff some pattern `p ∈ L` satisfies `r = p` or
`r` begins with `p` followed by `"/"`; the empty list denies every
repository. -/
theorem can_access_characterisation (r : String) :
    (AccessLevel.All.can_access r = true)
    ∧ (∀ repos, (AccessLevel.Repositories repos).can_access r = true ↔
        ∃ p ∈ repos, r = p ∨ strStartsWith r (p ++ "/") = true)
    ∧ ((AccessLevel.Repositories []).can_access r = false) := by
  refine ⟨rfl, fun repos => ?_, rfl⟩
  simp only [AccessLevel.can_access, List.any_eq_true, Bool.or_eq_true, beq_iff_eq]

/-! ## Token validation (`src/auth.rs`, `validate_token`) -/

/-- Modelled from the spec: the `jsonwebtoken` crate used by
`validate_token` (`src/auth.rs`, lines 71-79) is an external dependency
whose source is not in this repository.  Per the spec (sections 3 and 4.3),
an HS256 JWT's signature verifies exactly under the secret it was minted
with, so a token is modelled as its claims paired with the minting secret.
Decoding (`jsonwebtoken::decode` with `Validation::default()` after
`required_spec_claims.clear()`, as configured in `validate_token`) succeeds
iff the signature verifies and, when the `exp` claim is present, the
current time is strictly less than it; a missing `exp` is accepted since no
claim is required.  On failure it reports a detail string. -/
structure Jwt where
  claims : Claims
  signedWith : String
deriving DecidableEq, Repr

/-- Modelled from the spec: outcome of `jsonwebtoken::decode::<Claims>`
(see `Jwt`).  `now` is the verification time in seconds. -/
def jwtDecode (token : Jwt) (secret : String) (now : Nat) :
    Except String Claims :=
  if token.signedWith ≠ secret then
    .error "InvalidSignature"
  else
    match token.claims.exp with
    | none => .ok token.claims
    | some e => if now < e then .ok token.claims else .error "ExpiredSignature"

/-- `validate_token` from `src/auth.rs` (lines 71-79): decode with the
configured secret and no required claims, and map any decode error to
`Unauthorized ("Invalid token: " ++ detail)`. -/
def validate_token (token : Jwt) (secret : String) (now : Nat) :
    Except ProxyError Claims :=
  match jwtDecode token secret now with
  | .ok claims => .ok claims
  | .error e => .error (.Unauthorized ("Invalid token: " ++ e))

/-- Claim C3: `validate_token` accepts a token iff its signature verifies
under the configured secret and, when `exp` is present, `now` is strictly
less than it; a token without `exp` is accepted when the signature
verifies; an accepted token yields its own claims; and any failure is
`Unauthorized` with message `"Invalid token: <detail>"`. -/
theorem validate_token_spec (token : Jwt) (secret : String) (now : Nat) :
    ((∃ c, validate_token token secret now = .ok c) ↔
      token.signedWith = secret ∧ ∀ e, token.claims.exp = some e → now < e)
    ∧ (∀ c, validate_token token secret now = .ok c → c = token.claims)
    ∧ ((∃ c, validate_token token secret now = .ok c)
       ∨ ∃ detail, validate_token token secret now =
          .error (.Unauthorized ("Invalid token: " ++ detail))) := by
  unfold validate_token jwtDecode
  by_cases hs : token.signedWith = secret
  · cases hexp : token.claims.exp with
    | none => simp [hs, hexp]
    | some e =>
        by_cases hlt : now < e
        · simp [hs, hexp, hlt]
        · simp only [hs, hexp, hlt]
          refine ⟨?_, ?_, Or.inr ⟨"ExpiredSignature", by simp⟩⟩
          · simp [hlt]
          · simp
  · simp only [hs]
    refine ⟨?_, ?_, Or.inr ⟨"InvalidSignature", by simp [hs]⟩⟩
    · simp [hs]
    · simp [hs]

/-! ## Configuration and repository resolution (`src/config.rs`) -/

/-- `UpstreamAuth` from `src/config.rs` (lines 49-53). -/
structure UpstreamAuth where
  username : String
  password : String
deriving DecidableEq, Repr

/-- `Registry` from `src/config.rs` (lines 35-40). -/
structure Registry where
  id : String
  url : String
  auth : Option UpstreamAuth
deriving DecidableEq, Repr

/-- `Repository` (a repository mapping) from `src/config.rs` (lines 42-47). -/
structure Repository where
  name : String
  registry_id : String
  upstream_name : String
deriving DecidableEq, Repr

/-- `CacheConfig` from `src/config.rs` (lines 28-33); the directory is kept
as a path string. -/
structure CacheConfig where
  directory : String
  max_size_bytes : Nat
  max_age_seconds : Nat
deriving DecidableEq, Repr

/-- The registry/repository part of `Config` from `src/config.rs`.  The
server and auth sections play no role in the claims settled here beyond the
JWT secret, which is passed explicitly where needed. -/
structure Config where
  registries : List Registry
  repositories : List Repository
deriving DecidableEq, Repr

/-- `ResolvedRepository` from `src/config.rs` (lines 55-59). -/
structure ResolvedRepository where
  upstream_name : String
  registry_url : String
  auth : Option UpstreamAuth
deriving DecidableEq, Repr

/-- `Config::resolve_repository` from `src/config.rs` (lines 94-107):
linear search for the mapping, then for its registry. -/
def resolve_repository (cfg : Config) (repository_name : String) :
    Option ResolvedRepository := do
  let repo ← cfg.repositories.find? fun r => r.name == repository_name
  let registry ← cfg.registries.find? fun r => r.id == repo.registry_id
  pure ⟨repo.upstream_name, registry.url, registry.auth⟩

/-! ## Association-list primitives

The sled metadata store, the blob directory and the upstream token map are
modelled as association lists with the map operations used by the code:
keyed lookup, overwriting insert and keyed removal. -/

/-- Lookup by key (sled `get`, `HashMap::get`, file existence + read):
the value at the first binding of the key, if any. -/
def kvLookup {α : Type} : List (String × α) → String → Option α
  | [], _ => none
  | kv :: rest, k => if kv.1 = k then some kv.2 else kvLookup rest k

/-- Keyed removal (sled `remove`, file deletion): drop every binding of
the key. -/
def kvRemove {α : Type} : List (String × α) → String → List (String × α)
  | [], _ => []
  | kv :: rest, k =>
      if kv.1 = k then kvRemove rest k else kv :: kvRemove rest k

/-- Overwriting insert (sled `insert`, `HashMap::insert`, file write). -/
def kvInsert {α : Type} (l : List (String × α)) (k : String) (v : α) :
    List (String × α) :=
  (k, v) :: kvRemove l k

theorem kvLookup_insert {α : Type} (l : List (String × α)) (k : String)
    (v : α) : kvLookup (kvInsert l k v) k = some v := by
  simp [kvLookup, kvInsert]

theorem kvLookup_remove {α : Type} (l : List (String × α)) (k : String) :
    kvLookup (kvRemove l k) k = none := by
  induction l with
  | nil => rfl
  | cons hd tl ih =>
      by_cases hhd : hd.1 = k
      · simpa [kvRemove, hhd] using ih
      · simpa [kvRemove, kvLookup, hhd] using ih

theorem kvLookup_remove_ne {α : Type} (l : List (String × α)) (k k' : String)
    (h : k' ≠ k) : kvLookup (kvRemove l k) k' = kvLookup l k' := by
  induction l with
  | nil => rfl
  | cons hd tl ih =>
      by_cases hhd : hd.1 = k
      · simp [kvRemove, kvLookup, hhd, Ne.symm h, ih]
      · by_cases hk' : hd.1 = k'
        · simp [kvRemove, kvLookup, hhd, hk', h]
        · simp [kvRemove, kvLookup, hhd, hk', ih]

theorem kvLookup_insert_ne {α : Type} (l : List (String × α)) (k k' : String)
    (v : α) (h : k' ≠ k) : kvLookup (kvInsert l k v) k' = kvLookup l k' := by
  simp only [kvInsert, kvLookup]
  rw [if_neg (Ne.symm h)]
  exact kvLookup_remove_ne l k k' h

/-! ## Blob cache (`src/cache.rs`) -/

/-- `CacheEntry` from `src/cache.rs` (lines 13-19).  chrono timestamps
become integer seconds. -/
structure CacheEntry where
  digest : String
  size : Nat
  last_accessed : Int
  created : Int
deriving DecidableEq, Repr

/-- The mutable state of a `BlobCache` (`src/cache.rs`, lines 21-25): the
sled metadata store keyed by digest (entries stored already parsed — every
entry written by `put` round-trips through JSON unchanged), the blob files
keyed by their path, and the in-memory `total_size` counter. -/
structure CacheState where
  db : List (String × CacheEntry)
  files : List (String × List Nat)
  total_size : Nat
deriving DecidableEq, Repr

/-- `BlobCache::blob_path` from `src/cache.rs` (lines 228-236): replace
`:` by `_`, fan out on the first two characters (or the whole string if
shorter). -/
def blob_path (cfg : CacheConfig) (digest : String) : String :=
  let digest_clean :=
    String.mk (digest.toList.map fun c => if c == ':' then '_' else c)
  let pfx :=
    String.mk (digest_clean.toList.take (min 2 digest_clean.toList.length))
  cfg.directory ++ "/blobs/" ++ pfx ++ "/" ++ digest_clean

/-- `BlobCache::get` from `src/cache.rs` (lines 58-99).  Returns the new
state, the optional bytes, and the warnings logged.  The transient
read-I/O-failure branch (line 94-97, `Ok(None)` after a failed
`fs::read`) cannot occur in the pure file model, where a present file
always yields its bytes. -/
def cacheGet (cfg : CacheConfig) (s : CacheState) (digest : String)
    (now : Int) : CacheState × Option (List Nat) × List String :=
  match kvLookup s.db digest with
  | none => (s, none, [])
  | some entry =>
      let path := blob_path cfg digest
      match kvLookup s.files path with
      | none =>
          ({ db := kvRemove s.db digest
             files := s.files
             total_size := s.total_size - entry.size },
           none, ["Cache entry exists but blob file missing: " ++ digest])
      | some data =>
          ({ db := kvInsert s.db digest { entry with last_accessed := now }
             files := s.files
             total_size := s.total_size },
           some data, [])

/-- `BlobCache::put` from `src/cache.rs` (lines 101-143): write and sync
the blob file, insert the metadata entry, then `total_size += size`.
I/O failures (each mapped to `ProxyError::Cache`) cannot occur in the pure
model, so the successful path is total. -/
def cachePut (cfg : CacheConfig) (s : CacheState) (digest : String)
    (data : List Nat) (now : Int) : CacheState :=
  let size := data.length
  let path := blob_path cfg digest
  let entry : CacheEntry :=
    { digest := digest, size := size, last_accessed := now, created := now }
  { db := kvInsert s.db digest entry
    files := kvInsert s.files path data
    total_size := s.total_size + size }

/-- `BlobCache::remove_entry` from `src/cache.rs` (lines 209-226): remove
the blob file if it exists, remove the metadata entry, and decrement
`total_size` with saturating subtraction (which is `Nat` subtraction). -/
def remove_entry (cfg : CacheConfig) (s : CacheState) (key : String)
    (entry : CacheEntry) : CacheState :=
  { db := kvRemove s.db key
    files := kvRemove s.files (blob_path cfg entry.digest)
    total_size := s.total_size - entry.size }

/-- The expiry test from `BlobCache::cleanup` (`src/cache.rs`, line 156):
`now - entry.last_accessed > max_age`, a strict comparison of signed
(chrono) quantities. -/
def entryExpired (max_age_seconds : Nat) (now : Int) (entry : CacheEntry) :
    Bool :=
  now - entry.last_accessed > (max_age_seconds : Int)

/-- The size-eviction target from `BlobCache::cleanup` (`src/cache.rs`,
line 178): `(max_size_bytes as f64 * 0.9) as u64`.  Modelled as exact
rational arithmetic rounded down; the binary-float intermediate of the
source can differ by one unit on huge inputs, and no theorem below depends
on this value. -/
def cleanupTarget (max_size_bytes : Nat) : Nat :=
  max_size_bytes * 9 / 10

/-- The LRU eviction loop from `BlobCache::cleanup` (`src/cache.rs`,
lines 180-191): walk the `last_accessed`-sorted survivors, stopping as
soon as `current_size - removed_size` is within the target. -/
def evictLoop (cfg : CacheConfig) (current_size target_size : Nat) :
    List CacheEntry → Nat → CacheState → CacheState
  | [], _, st => st
  | entry :: rest, removed_size, st =>
      if current_size - removed_size ≤ target_size then st
      else
        evictLoop cfg current_size target_size rest
          (removed_size + entry.size) (remove_entry cfg st entry.digest entry)

/-- `BlobCache::cleanup` from `src/cache.rs` (lines 145-207): one scan of
the metadata store partitions entries into expired and alive; expired
entries are removed; then, if `total_size` still exceeds
`max_size_bytes`, the alive entries are evicted in LRU order down to the
target.  Per-entry removal failures (log-and-continue in the source) cannot
occur in the pure model. -/
def cleanup (cfg : CacheConfig) (s : CacheState) (now : Int) : CacheState :=
  let entries_to_remove :=
    s.db.filter fun kv => entryExpired cfg.max_age_seconds now kv.2
  let size_ordered_entries :=
    (s.db.filter fun kv => !entryExpired cfg.max_age_seconds now kv.2).map
      fun kv => kv.2
  let s1 := entries_to_remove.foldl
    (fun st kv => remove_entry cfg st kv.1 kv.2) s
  let current_size := s1.total_size
  if current_size > cfg.max_size_bytes then
    let sorted := size_ordered_entries.mergeSort
      fun a b => decide (a.last_accessed ≤ b.last_accessed)
    evictLoop cfg current_size (cleanupTarget cfg.max_size_bytes) sorted 0 s1
  else s1

/-- The bookkeeping invariant of the spec: the in-memory `total_size`
equals the sum of the `size` fields over the metadata store. -/
def sizeInvariant (s : CacheState) : Prop :=
  s.total_size = (s.db.map fun kv => kv.2.size).sum

/-! ## Cache lemmas and claims C4, C8, C2, C9 -/

theorem kvLookup_eq_of_nodup {α : Type} (l : List (String × α))
    (hU : (l.map fun kv => kv.1).Nodup) (k : String) (v : α)
    (hmem : (k, v) ∈ l) : kvLookup l k = some v := by
  induction l with
  | nil => cases hmem
  | cons hd tl ih =>
      rcases List.mem_cons.mp hmem with heq | htl
      · rw [← heq]
        simp [kvLookup]
      · rw [List.map_cons] at hU
        have hk : hd.1 ≠ k := by
          intro hk
          have hmem2 : hd.1 ∈ tl.map fun kv => kv.1 := by
            rw [hk]
            exact List.mem_map.mpr ⟨(k, v), htl, rfl⟩
          exact (List.nodup_cons.mp hU).1 hmem2
        simp only [kvLookup, hk, if_false]
        exact ih (List.nodup_cons.mp hU).2 htl

theorem remove_entry_db_none {cfg : CacheConfig} {st : CacheState}
    {k d : String} {entry : CacheEntry}
    (h : kvLookup st.db d = none) :
    kvLookup (remove_entry cfg st k entry).db d = none := by
  by_cases hk : d = k
  · rw [hk]; exact kvLookup_remove st.db k
  · rw [remove_entry, kvLookup_remove_ne st.db k d hk]; exact h

theorem remove_entry_db_ne {cfg : CacheConfig} {st : CacheState}
    {k d : String} {entry : CacheEntry} (h : d ≠ k) :
    kvLookup (remove_entry cfg st k entry).db d = kvLookup st.db d :=
  kvLookup_remove_ne st.db k d h

theorem fold_remove_preserves_none (cfg : CacheConfig)
    (l : List (String × CacheEntry)) (d : String) :
    ∀ st : CacheState, kvLookup st.db d = none →
      kvLookup ((l.foldl (fun st kv => remove_entry cfg st kv.1 kv.2) st)).db d
        = none := by
  induction l with
  | nil => intro st h; exact h
  | cons hd tl ih =>
      intro st h
      exact ih _ (remove_entry_db_none h)

theorem fold_remove_lookup_none_of_mem (cfg : CacheConfig)
    (l : List (String × CacheEntry)) (d : String) :
    ∀ st : CacheState, (∃ e, (d, e) ∈ l) →
      kvLookup ((l.foldl (fun st kv => remove_entry cfg st kv.1 kv.2) st)).db d
        = none := by
  induction l with
  | nil => rintro st ⟨e, he⟩; cases he
  | cons hd tl ih =>
      rintro st ⟨e, he⟩
      rcases List.mem_cons.mp he with heq | htl
      · have : kvLookup (remove_entry cfg st hd.1 hd.2).db d = none := by
          rw [← heq]
          exact kvLookup_remove st.db d
        exact fold_remove_preserves_none cfg tl d _ this
      · exact ih _ ⟨e, htl⟩

theorem fold_remove_lookup_of_keys_ne (cfg : CacheConfig)
    (l : List (String × CacheEntry)) (d : String)
    (hne : ∀ kv ∈ l, kv.1 ≠ d) :
    ∀ st : CacheState,
      kvLookup ((l.foldl (fun st kv => remove_entry cfg st kv.1 kv.2) st)).db d
        = kvLookup st.db d := by
  induction l with
  | nil => intro st; rfl
  | cons hd tl ih =>
      intro st
      have hd_ne : d ≠ hd.1 := fun h => hne hd (List.mem_cons_self hd tl) h.symm
      rw [List.foldl_cons,
        ih (fun kv hkv => hne kv (List.mem_cons_of_mem hd hkv)) _,
        remove_entry_db_ne hd_ne]

theorem fold_remove_total_le (cfg : CacheConfig)
    (l : List (String × CacheEntry)) :
    ∀ st : CacheState,
      ((l.foldl (fun st kv => remove_entry cfg st kv.1 kv.2) st)).total_size
        ≤ st.total_size := by
  induction l with
  | nil => intro st; exact le_refl _
  | cons hd tl ih =>
      intro st
      exact le_trans (ih _) (Nat.sub_le _ _)

theorem evictLoop_preserves_none (cfg : CacheConfig)
    (current target : Nat) (l : List CacheEntry) (d : String) :
    ∀ (removed : Nat) (st : CacheState), kvLookup st.db d = none →
      kvLookup (evictLoop cfg current target l removed st).db d = none := by
  induction l with
  | nil => intro removed st h; exact h
  | cons hd tl ih =>
      intro removed st h
      rw [evictLoop]
      by_cases hc : current - removed ≤ target
      · rw [if_pos hc]; exact h
      · rw [if_neg hc]
        exact ih _ _ (remove_entry_db_none h)

/-- Claim C4: a successful `put(digest, data)` followed immediately by
`get(digest)` returns exactly `data`, for every prior cache state. -/
theorem put_then_get (cfg : CacheConfig) (s : CacheState) (digest : String)
    (data : List Nat) (now now2 : Int) :
    (cacheGet cfg (cachePut cfg s digest data now) digest now2).2.1
      = some data := by
  simp [cacheGet, cachePut, kvLookup_insert]

/-- Claim C8: when `get` finds a metadata entry but the blob file at the
canonical path is missing, it logs the warning, deletes the metadata entry,
decrements `total_size` by the entry's size (saturating), and returns
absent rather than an error. -/
theorem get_self_heals (cfg : CacheConfig) (s : CacheState) (digest : String)
    (entry : CacheEntry) (now : Int)
    (hdb : kvLookup s.db digest = some entry)
    (hfile : kvLookup s.files (blob_path cfg digest) = none) :
    cacheGet cfg s digest now =
      ({ db := kvRemove s.db digest
         files := s.files
         total_size := s.total_size - entry.size },
       none, ["Cache entry exists but blob file missing: " ++ digest]) := by
  simp [cacheGet, hdb, hfile]

/-- Witness for claim C8 at a concrete state: one metadata entry for
`sha256:a` of size 5, no blob file. -/
theorem get_self_heals_witness :
    cacheGet ⟨"/cache", 1000, 60⟩
      ⟨[("sha256:a", ⟨"sha256:a", 5, 0, 0⟩)], [], 5⟩ "sha256:a" 7 =
      ({ db := kvRemove [("sha256:a", ⟨"sha256:a", 5, 0, 0⟩)] "sha256:a"
         files := []
         total_size := 5 - 5 },
       none, ["Cache entry exists but blob file missing: " ++ "sha256:a"]) :=
  get_self_heals ⟨"/cache", 1000, 60⟩
    ⟨[("sha256:a", ⟨"sha256:a", 5, 0, 0⟩)], [], 5⟩ "sha256:a"
    ⟨"sha256:a", 5, 0, 0⟩ 7 (by decide) (by decide)

/-- Claim C2 (refuted): `put` for a digest that already has an entry in the
metadata store adds the new size to `total_size` without subtracting the
overwritten entry's size (`src/cache.rs`, lines 133-138), so after the
second `put` of `sha256:d` with 3 bytes the counter reads 6 while the
store's sizes sum to 3. -/
theorem put_existing_digest_double_counts :
    (sizeInvariant (cachePut ⟨"/cache", 1000000, 3600⟩ ⟨[], [], 0⟩
        "sha256:d" [0, 0, 0] 0))
    ∧ ((cachePut ⟨"/cache", 1000000, 3600⟩
          (cachePut ⟨"/cache", 1000000, 3600⟩ ⟨[], [], 0⟩ "sha256:d"
            [0, 0, 0] 0) "sha256:d" [0, 0, 0] 1).total_size = 6)
    ∧ (((cachePut ⟨"/cache", 1000000, 3600⟩
          (cachePut ⟨"/cache", 1000000, 3600⟩ ⟨[], [], 0⟩ "sha256:d"
            [0, 0, 0] 0) "sha256:d" [0, 0, 0] 1).db.map
          fun kv => kv.2.size).sum = 3)
    ∧ ¬ sizeInvariant (cachePut ⟨"/cache", 1000000, 3600⟩
          (cachePut ⟨"/cache", 1000000, 3600⟩ ⟨[], [], 0⟩ "sha256:d"
            [0, 0, 0] 0) "sha256:d" [0, 0, 0] 1) := by
  refine ⟨?_, by decide, by decide, ?_⟩
  · unfold sizeInvariant
    decide
  · unfold sizeInvariant
    decide

theorem mem_of_kvLookup {α : Type} {l : List (String × α)} {k : String}
    {v : α} (h : kvLookup l k = some v) : (k, v) ∈ l := by
  induction l with
  | nil => cases h
  | cons hd tl ih =>
      by_cases hhd : hd.1 = k
      · rw [kvLookup, if_pos hhd] at h
        have hv := Option.some.inj h
        have heq : (k, v) = hd := by
          rw [← hhd, ← hv]
        exact List.mem_cons.mpr (Or.inl heq)
      · rw [kvLookup, if_neg hhd] at h
        exact List.mem_cons_of_mem _ (ih h)

theorem cleanup_removes_expired (cfg : CacheConfig) (s : CacheState)
    (d : String) (e : CacheEntry) (now : Int)
    (hd : kvLookup s.db d = some e)
    (hexp : entryExpired cfg.max_age_seconds now e = true) :
    kvLookup (cleanup cfg s now).db d = none := by
  have hmem : (d, e) ∈
      s.db.filter fun kv => entryExpired cfg.max_age_seconds now kv.2 :=
    List.mem_filter.mpr ⟨mem_of_kvLookup hd, hexp⟩
  have h1 := fold_remove_lookup_none_of_mem cfg
    (s.db.filter fun kv => entryExpired cfg.max_age_seconds now kv.2) d s
    ⟨e, hmem⟩
  simp only [cleanup]
  split
  · exact evictLoop_preserves_none cfg _ _ _ d _ _ h1
  · exact h1

theorem cleanup_keeps_unexpired (cfg : CacheConfig) (s : CacheState)
    (d : String) (e : CacheEntry) (now : Int)
    (hU : (s.db.map fun kv => kv.1).Nodup)
    (hd : kvLookup s.db d = some e)
    (hexp : entryExpired cfg.max_age_seconds now e = false)
    (hle : s.total_size ≤ cfg.max_size_bytes) :
    kvLookup (cleanup cfg s now).db d = some e := by
  have hkeys : ∀ kv ∈
      (s.db.filter fun kv => entryExpired cfg.max_age_seconds now kv.2),
      kv.1 ≠ d := by
    rintro ⟨k, ent⟩ hkv hkd
    have hswap := List.mem_filter.mp hkv
    have hlk : kvLookup s.db k = some ent :=
      kvLookup_eq_of_nodup s.db hU k ent hswap.1
    have hkd2 : k = d := hkd
    rw [hkd2, hd] at hlk
    have : ent = e := (Option.some.inj hlk).symm
    rw [this] at hswap
    rw [hswap.2] at hexp
    cases hexp
  have h1 := fold_remove_lookup_of_keys_ne cfg
    (s.db.filter fun kv => entryExpired cfg.max_age_seconds now kv.2) d hkeys s
  have h2 := fold_remove_total_le cfg
    (s.db.filter fun kv => entryExpired cfg.max_age_seconds now kv.2) s
  simp only [cleanup]
  split
  · rename_i hgt
    exact absurd hgt (not_lt.mpr (le_trans h2 hle))
  · rw [h1, hd]

/-- Claim C9: an entry is removed by `cleanup`'s age phase exactly when
`now - last_accessed` is strictly greater than `max_age`: an entry at the
boundary (`now - last_accessed = max_age`) is not expired, and survives a
cleanup that triggers no size eviction (`total_size ≤ max_size_bytes`),
while an expired entry is gone from the metadata store and a subsequent
`get` of its digest returns absent. -/
theorem cleanup_age_phase_correct (cfg : CacheConfig) (s : CacheState)
    (d : String) (e : CacheEntry) (now now2 : Int)
    (hU : (s.db.map fun kv => kv.1).Nodup)
    (hd : kvLookup s.db d = some e) :
    (now - e.last_accessed = (cfg.max_age_seconds : Int) →
        entryExpired cfg.max_age_seconds now e = false)
    ∧ (entryExpired cfg.max_age_seconds now e = true →
        kvLookup (cleanup cfg s now).db d = none
        ∧ (cacheGet cfg (cleanup cfg s now) d now2).2.1 = none)
    ∧ (entryExpired cfg.max_age_seconds now e = false →
        s.total_size ≤ cfg.max_size_bytes →
        kvLookup (cleanup cfg s now).db d = some e) := by
  refine ⟨?_, ?_, ?_⟩
  · intro hbd
    simp [entryExpired, hbd]
  · intro hexp
    have hnone := cleanup_removes_expired cfg s d e now hd hexp
    exact ⟨hnone, by simp [cacheGet, hnone]⟩
  · intro hexp hle
    exact cleanup_keeps_unexpired cfg s d e now hU hd hexp hle

/-- Concrete cleanup configuration for witnesses: `max_age = 10` seconds,
`max_size = 1000` bytes. -/
def c9cfg : CacheConfig := ⟨"/cache", 1000, 10⟩

/-- A stale entry: last accessed at time 0 (expired at time 100). -/
def c9old : CacheEntry := ⟨"sha256:old", 4, 0, 0⟩

/-- A boundary entry: last accessed at time 90, so at time 100 its age is
exactly `max_age`. -/
def c9new : CacheEntry := ⟨"sha256:new", 6, 90, 90⟩

/-- Concrete two-entry cache state for the cleanup witness. -/
def c9state : CacheState :=
  ⟨[("sha256:old", c9old), ("sha256:new", c9new)], [], 10⟩

/-- Witness for claim C9: at time 100 with `max_age = 10`, the entry last
accessed at time 0 is removed by `cleanup` and `get` then misses, while
the boundary entry last accessed at time 90 is not expired and survives. -/
theorem cleanup_age_phase_correct_witness :
    entryExpired c9cfg.max_age_seconds 100 c9new = false
    ∧ kvLookup (cleanup c9cfg c9state 100).db "sha256:old" = none
    ∧ (cacheGet c9cfg (cleanup c9cfg c9state 100) "sha256:old" 101).2.1 = none
    ∧ kvLookup (cleanup c9cfg c9state 100).db "sha256:new" = some c9new :=
  ⟨(cleanup_age_phase_correct c9cfg c9state "sha256:new" c9new 100 101
      (by decide) (by decide)).1 (by decide),
   ((cleanup_age_phase_correct c9cfg c9state "sha256:old" c9old 100 101
      (by decide) (by decide)).2.1 (by decide)).1,
   ((cleanup_age_phase_correct c9cfg c9state "sha256:old" c9old 100 101
      (by decide) (by decide)).2.1 (by decide)).2,
   (cleanup_age_phase_correct c9cfg c9state "sha256:new" c9new 100 101
      (by decide) (by decide)).2.2 (by decide) (by decide)⟩

/-! ## Upstream client (`src/upstream.rs`) -/

/-- An upstream HTTP response as the client observes it: status code, the
`WWW-Authenticate` header if any, and the fully buffered body. -/
structure HttpResponse where
  status : Nat
  www_authenticate : Option String
  body : List Nat
deriving DecidableEq, Repr

/-- The token service's reply: HTTP status and the decoded JSON body
(`token` and `access_token` fields of `AuthToken`, `src/upstream.rs`,
lines 11-15); a JSON decode failure is an error string. -/
structure TokenServiceReply where
  status : Nat
  json : Except String (Option String × Option String)
deriving Repr

/-- The network, made explicit: the response to the initial request, the
validity of the realm URL (`reqwest::Url::parse`), the token-service
exchange, and the response to the retried request.  A transport failure
(`reqwest::Error`) is an error string. -/
structure UpstreamEnv where
  firstSend : Except String HttpResponse
  realmValid : String → Bool
  tokenSend : Except String TokenServiceReply
  retrySend : Except String HttpResponse

/-- Rust `str::trim_matches('"')`: strip all leading and trailing
double-quote characters. -/
def trimQuotes (s : String) : String :=
  String.mk
    (((s.toList.dropWhile fun c => c == '"').reverse.dropWhile
        fun c => c == '"').reverse)

/-- `parse_www_authenticate` from `src/upstream.rs` (lines 209-229): trim;
an input not starting with `"Bearer "` yields the empty map; otherwise
split the rest on `,`, split each part at its first `=`, trim the key,
trim the value and strip surrounding quotes, and insert into the map. -/
def parse_www_authenticate (header : String) : List (String × String) :=
  let header := strTrim header
  if ¬ strStartsWith header "Bearer " then []
  else
    let params_str := header.toList.drop 7
    (splitOnChar ',' params_str).foldl
      (fun params part =>
        let part := strTrim (String.mk part)
        match part.toList.findIdx? fun c => c == '=' with
        | none => params
        | some eq_pos =>
            let key := strTrim (String.mk (part.toList.take eq_pos))
            let value := trimQuotes
              (strTrim (String.mk (part.toList.drop (eq_pos + 1))))
            kvInsert params key value)
      []

/-- `UpstreamClient::authenticate` from `src/upstream.rs` (lines 163-206):
parse the challenge, require `realm`, parse the realm URL, query the token
service (with configured basic-auth credentials, which do not alter the
modelled reply), require a 2xx status, and extract `token` else
`access_token` from the JSON. -/
def authenticate (www_authenticate : String)
    (_upstream_auth : Option UpstreamAuth) (env : UpstreamEnv) :
    Except ProxyError String :=
  let params := parse_www_authenticate www_authenticate
  match kvLookup params "realm" with
  | none => .error (.Internal "WWW-Authenticate header missing realm")
  | some realm =>
      if env.realmValid realm then
        match env.tokenSend with
        | .error e => .error (.Upstream e)
        | .ok reply =>
            if 200 ≤ reply.status ∧ reply.status ≤ 299 then
              match reply.json with
              | .error e => .error (.Upstream e)
              | .ok (token, access_token) =>
                  match token.orElse fun _ => access_token with
                  | some t => .ok t
                  | none => .error (.Internal "No token in auth response")
            else
              .error (.Internal ("Authentication failed with status: "
                ++ toString reply.status))
      else .error (.Internal "Invalid realm URL")

/-- `UpstreamClient::make_authenticated_request` from `src/upstream.rs`
(lines 92-161).  The Accept headers and any cached bearer token shape the
outgoing request but not the modelled response, which the environment
supplies; a non-UTF-8 `WWW-Authenticate` header value (the
`to_str` failure, line 131) cannot occur since headers are modelled as
strings.  Returns the updated token cache and the result: a non-401
response is returned as-is; a 401 without `WWW-Authenticate` is returned
as-is; a 401 with the header triggers `authenticate`, whose failure
propagates, and on success the new token is stored under
`"<registry_url>:<upstream_name>"` before the request is retried once. -/
def make_authenticated_request (repo : ResolvedRepository)
    (tokens : List (String × String)) (env : UpstreamEnv) :
    List (String × String) × Except ProxyError HttpResponse :=
  let cache_key := repo.registry_url ++ ":" ++ repo.upstream_name
  match env.firstSend with
  | .error e => (tokens, .error (.Upstream e))
  | .ok response =>
      if response.status = 401 then
        match response.www_authenticate with
        | some auth_str =>
            match authenticate auth_str repo.auth env with
            | .error e => (tokens, .error e)
            | .ok token =>
                let tokens2 := kvInsert tokens cache_key token
                match env.retrySend with
                | .error e => (tokens2, .error (.Upstream e))
                | .ok retry_response => (tokens2, .ok retry_response)
        | none => (tokens, .ok response)
      else (tokens, .ok response)

/-- `UpstreamClient::get_blob` from `src/upstream.rs` (lines 69-82): make
the authenticated request; a 404 becomes `NotFound`; any other status
yields the buffered body. -/
def upstream_get_blob (repo : ResolvedRepository) (digest : String)
    (tokens : List (String × String)) (env : UpstreamEnv) :
    List (String × String) × Except ProxyError (List Nat) :=
  match make_authenticated_request repo tokens env with
  | (tokens2, .error e) => (tokens2, .error e)
  | (tokens2, .ok response) =>
      if response.status = 404 then
        (tokens2, .error (.NotFound ("Blob not found: " ++ digest)))
      else (tokens2, .ok response.body)

/-- `UpstreamClient::get_tags` from `src/upstream.rs` (lines 84-90): make
the authenticated request and return the buffered body — with no check of
the response status. -/
def upstream_get_tags (repo : ResolvedRepository)
    (tokens : List (String × String)) (env : UpstreamEnv) :
    List (String × String) × Except ProxyError (List Nat) :=
  match make_authenticated_request repo tokens env with
  | (tokens2, .error e) => (tokens2, .error e)
  | (tokens2, .ok response) => (tokens2, .ok response.body)

/-! ## Claim C5: non-Bearer challenge on a 401 -/

/-- A 401 upstream response whose `WWW-Authenticate` header is a Basic
(not Bearer) challenge. -/
def c5resp : HttpResponse := ⟨401, some "Basic realm=\"test\"", [1, 2, 3]⟩

/-- Environment delivering `c5resp` as the first response. -/
def c5env : UpstreamEnv :=
  ⟨.ok c5resp, fun _ => true, .ok ⟨200, .ok (some "t", none)⟩,
   .ok ⟨200, none, []⟩⟩

/-- Resolved repository used by the upstream-client witnesses. -/
def c5repo : ResolvedRepository :=
  ⟨"library/app", "https://registry.example", none⟩

/-- Counterexample to claim C5 as stated: on a 401 whose
`WWW-Authenticate` value is `Basic realm="test"`, the parameter map is
empty but `make_authenticated_request` does NOT return the original 401
response — the missing `realm` makes `authenticate` fail and the
`Internal` error propagates to the caller. -/
theorem non_bearer_401_counterexample :
    parse_www_authenticate "Basic realm=\"test\"" = []
    ∧ (make_authenticated_request c5repo [] c5env).2 =
        .error (.Internal "WWW-Authenticate header missing realm")
    ∧ (make_authenticated_request c5repo [] c5env).2 ≠ .ok c5resp := by
  refine ⟨by decide, rfl, fun h => ?_⟩
  exact Except.noConfusion h

/-- Claim C5 (amended): for every 401 upstream response whose
`WWW-Authenticate` value does not begin (after trimming) with `Bearer `,
`parse_www_authenticate` yields the empty parameter map, and
`make_authenticated_request` returns the error
`Internal "WWW-Authenticate header missing realm"` — not the original 401
response, nor any response at all. -/
theorem non_bearer_challenge_gives_internal_error
    (repo : ResolvedRepository) (tokens : List (String × String))
    (env : UpstreamEnv) (resp : HttpResponse) (h : String)
    (hfirst : env.firstSend = .ok resp)
    (hstatus : resp.status = 401)
    (hwww : resp.www_authenticate = some h)
    (hbearer : strStartsWith (strTrim h) "Bearer " = false) :
    parse_www_authenticate h = []
    ∧ (make_authenticated_request repo tokens env).2 =
        .error (.Internal "WWW-Authenticate header missing realm")
    ∧ ∀ r, (make_authenticated_request repo tokens env).2 ≠ .ok r := by
  have hparse : parse_www_authenticate h = [] := by
    simp [parse_www_authenticate, hbearer]
  have hauth : authenticate h repo.auth env =
      .error (.Internal "WWW-Authenticate header missing realm") := by
    simp [authenticate, hparse, kvLookup]
  have hmar : (make_authenticated_request repo tokens env).2 =
      .error (.Internal "WWW-Authenticate header missing realm") := by
    simp [make_authenticated_request, hfirst, hstatus, hwww, hauth]
  refine ⟨hparse, hmar, fun r hr => ?_⟩
  rw [hmar] at hr
  exact Except.noConfusion hr

/-- Witness for the amended claim C5 at the concrete Basic challenge. -/
theorem non_bearer_challenge_gives_internal_error_witness :
    parse_www_authenticate "Basic realm=\"test\"" = []
    ∧ (make_authenticated_request c5repo [] c5env).2 =
        .error (.Internal "WWW-Authenticate header missing realm")
    ∧ ∀ r, (make_authenticated_request c5repo [] c5env).2 ≠ .ok r :=
  non_bearer_challenge_gives_internal_error c5repo [] c5env c5resp
    "Basic realm=\"test\"" rfl rfl rfl (by decide)

/-! ## The axum router (`src/main.rs`, lines 63-87) -/

/-- The HTTP methods routed by `main`. -/
inductive Method where
  | GET
  | HEAD
  | PUT
  | DELETE
deriving DecidableEq, Repr

/-- The handlers of `src/registry.rs` that routes dispatch to. -/
inductive Handler where
  | version_check
  | get_manifest
  | get_blob
  | head_blob
  | get_tags
  | unsupported_write
deriving DecidableEq, Repr

/-- Outcome of routing: a handler, axum's default 405 Method Not Allowed
(path matched, method not registered), or its default 404 (no route). -/
inductive RouteResult where
  | handled (h : Handler)
  | methodNotAllowed
  | notFound
deriving DecidableEq, Repr

/-- The router built in `main` (`src/main.rs`, lines 63-87), over paths
split into segments (a trailing slash is a trailing empty segment, so
`/v2/` is `["v2", ""]`).  Per axum/matchit semantics a `:param` captures
exactly one non-empty segment, a GET handler also serves HEAD when no
explicit HEAD route exists, an unregistered method on a matched path gets
405, and an unmatched path gets 404.  The registered routes:
`/v2/` GET; `/v2/:repository/manifests/:reference` GET+PUT+DELETE;
`/v2/:repository/blobs/:digest` GET+HEAD+DELETE;
`/v2/:repository/blobs/uploads/` PUT; `/v2/:repository/tags/list` GET. -/
def route (m : Method) (path : List String) : RouteResult :=
  match path with
  | ["v2", ""] =>
      match m with
      | .GET => .handled .version_check
      | .HEAD => .handled .version_check
      | _ => .methodNotAllowed
  | ["v2", repository, "manifests", reference] =>
      if repository = "" ∨ reference = "" then .notFound
      else
        match m with
        | .GET => .handled .get_manifest
        | .HEAD => .handled .get_manifest
        | .PUT => .handled .unsupported_write
        | .DELETE => .handled .unsupported_write
  | ["v2", repository, "blobs", "uploads", ""] =>
      if repository = "" then .notFound
      else
        match m with
        | .PUT => .handled .unsupported_write
        | _ => .methodNotAllowed
  | ["v2", repository, "blobs", digest] =>
      if repository = "" ∨ digest = "" then .notFound
      else
        match m with
        | .GET => .handled .get_blob
        | .HEAD => .handled .head_blob
        | .DELETE => .handled .unsupported_write
        | .PUT => .methodNotAllowed
  | ["v2", repository, "tags", "list"] =>
      if repository = "" then .notFound
      else
        match m with
        | .GET => .handled .get_tags
        | .HEAD => .handled .get_tags
        | _ => .methodNotAllowed
  | _ => .notFound

/-- `handle_unsupported_write` from `src/registry.rs` (lines 164-168). -/
def handle_unsupported_write : Except ProxyError Unit :=
  .error (.Forbidden "Write operations are not supported by this proxy")

/-- Counterexample to claim C6 as stated: PUT to `/v2/myapp/blobs/sha256:abc`
is not routed to the Forbidden-returning write handler — no PUT is
registered on the blobs route (`src/main.rs`, lines 71-76), so axum's
default 405 Method Not Allowed answers; likewise DELETE to `/v2/` and
PUT/DELETE to `/v2/myapp/tags/list`. -/
theorem write_rejection_counterexample :
    route .PUT ["v2", "myapp", "blobs", "sha256:abc"] = .methodNotAllowed
    ∧ route .PUT ["v2", "myapp", "blobs", "sha256:abc"]
        ≠ .handled .unsupported_write
    ∧ route .DELETE ["v2", ""] = .methodNotAllowed
    ∧ route .DELETE ["v2", "myapp", "tags", "list"] = .methodNotAllowed := by
  refine ⟨by decide, by decide, by decide, by decide⟩

theorem route_put_iff (path : List String) :
    route .PUT path = .handled .unsupported_write ↔
      ((∃ repo reference, repo ≠ "" ∧ reference ≠ ""
          ∧ path = ["v2", repo, "manifests", reference])
       ∨ (∃ repo, repo ≠ ""
          ∧ path = ["v2", repo, "blobs", "uploads", ""])) := by
  unfold route
  split
  · simp
  · rename_i repository reference
    by_cases hg : repository = "" ∨ reference = ""
    · rcases hg with h | h <;> simp [h]
    · push_neg at hg
      simp [hg.1, hg.2]
  · rename_i repository
    by_cases hg : repository = ""
    · simp [hg]
    · simp [hg]
  · rename_i repository digest
    by_cases hg : repository = "" ∨ digest = ""
    · rcases hg with h | h <;> simp [h]
    · push_neg at hg
      simp [hg.1, hg.2]
  · rename_i repository
    by_cases hg : repository = ""
    · simp [hg]
    · simp [hg]
  · rename_i h1 h2 h3 h4 h5
    simp
    constructor
    · intro repo hr ref hf hp
      exact h2 repo ref hp
    · intro repo hr hp
      exact h3 repo hp

theorem route_delete_iff (path : List String) :
    route .DELETE path = .handled .unsupported_write ↔
      ((∃ repo reference, repo ≠ "" ∧ reference ≠ ""
          ∧ path = ["v2", repo, "manifests", reference])
       ∨ (∃ repo digest, repo ≠ "" ∧ digest ≠ ""
          ∧ path = ["v2", repo, "blobs", digest])) := by
  unfold route
  split
  · simp
  · rename_i repository reference
    by_cases hg : repository = "" ∨ reference = ""
    · rcases hg with h | h <;> simp [h]
    · push_neg at hg
      simp [hg.1, hg.2]
  · rename_i repository
    by_cases hg : repository = ""
    · simp [hg]
    · simp [hg]
  · rename_i repository digest
    by_cases hg : repository = "" ∨ digest = ""
    · rcases hg with h | h <;> simp [h]
    · push_neg at hg
      simp [hg.1, hg.2]
  · rename_i repository
    by_cases hg : repository = ""
    · simp [hg]
    · simp [hg]
  · rename_i h1 h2 h3 h4 h5
    simp
    constructor
    · intro repo hr ref hf hp
      exact h2 repo ref hp
    · intro repo hr ref hf hp
      exact h4 repo ref hp

theorem route_write_total (m : Method) (path : List String)
    (hm : m = .PUT ∨ m = .DELETE) :
    route m path = .handled .unsupported_write
    ∨ route m path = .methodNotAllowed
    ∨ route m path = .notFound := by
  rcases hm with rfl | rfl <;>
  · unfold route
    split
    · simp
    · rename_i repository reference
      by_cases hg : repository = "" ∨ reference = "" <;> simp [hg]
    · rename_i repository
      by_cases hg : repository = "" <;> simp [hg]
    · rename_i repository digest
      by_cases hg : repository = "" ∨ digest = "" <;> simp [hg]
    · rename_i repository
      by_cases hg : repository = "" <;> simp [hg]
    · simp

/-- Claim C6 (amended): for every PUT or DELETE request and EVERY path,
the request reaches the Forbidden-returning `handle_unsupported_write`
(HTTP 403, proxy error envelope) if and only if it is one of the
registered write routes — PUT or DELETE on `/v2/{repo}/manifests/{ref}`,
DELETE on `/v2/{repo}/blobs/{digest}`, PUT on `/v2/{repo}/blobs/uploads/`
— and otherwise gets axum's default 405 Method Not Allowed (registered
path, unregistered method) or 404 (unmatched path), never 403 and never
any other handler. -/
theorem write_rejection_on_registered_routes (m : Method)
    (path : List String) (hm : m = .PUT ∨ m = .DELETE) :
    (route m path = .handled .unsupported_write ↔
      ((∃ repo reference, repo ≠ "" ∧ reference ≠ ""
          ∧ path = ["v2", repo, "manifests", reference])
       ∨ (m = .DELETE ∧ ∃ repo digest, repo ≠ "" ∧ digest ≠ ""
          ∧ path = ["v2", repo, "blobs", digest])
       ∨ (m = .PUT ∧ ∃ repo, repo ≠ ""
          ∧ path = ["v2", repo, "blobs", "uploads", ""])))
    ∧ (route m path = .handled .unsupported_write
       ∨ route m path = .methodNotAllowed
       ∨ route m path = .notFound)
    ∧ handle_unsupported_write =
        .error (.Forbidden "Write operations are not supported by this proxy")
    ∧ (ProxyError.Forbidden
        "Write operations are not supported by this proxy").status = 403 := by
  rcases hm with rfl | rfl
  · refine ⟨?_, route_write_total _ path (Or.inl rfl), rfl, rfl⟩
    rw [route_put_iff]
    simp
  · refine ⟨?_, route_write_total _ path (Or.inr rfl), rfl, rfl⟩
    rw [route_delete_iff]
    simp

/-- Witness for the amended claim C6 at concrete path segments: every
registered write route answers with the Forbidden handler, and PUT on the
blobs route falls through to 405. -/
theorem write_rejection_on_registered_routes_witness :
    route .PUT ["v2", "myapp", "manifests", "latest"]
        = .handled .unsupported_write
    ∧ route .DELETE ["v2", "myapp", "manifests", "latest"]
        = .handled .unsupported_write
    ∧ route .DELETE ["v2", "myapp", "blobs", "sha256:abc"]
        = .handled .unsupported_write
    ∧ route .PUT ["v2", "myapp", "blobs", "uploads", ""]
        = .handled .unsupported_write
    ∧ route .PUT ["v2", "myapp", "blobs", "sha256:abc"] = .methodNotAllowed
    ∧ handle_unsupported_write =
        .error (.Forbidden "Write operations are not supported by this proxy")
    ∧ (ProxyError.Forbidden
        "Write operations are not supported by this proxy").status = 403 :=
  ⟨(write_rejection_on_registered_routes .PUT
      ["v2", "myapp", "manifests", "latest"] (Or.inl rfl)).1.mpr
      (Or.inl ⟨"myapp", "latest", by decide, by decide, rfl⟩),
   (write_rejection_on_registered_routes .DELETE
      ["v2", "myapp", "manifests", "latest"] (Or.inr rfl)).1.mpr
      (Or.inl ⟨"myapp", "latest", by decide, by decide, rfl⟩),
   (write_rejection_on_registered_routes .DELETE
      ["v2", "myapp", "blobs", "sha256:abc"] (Or.inr rfl)).1.mpr
      (Or.inr (Or.inl ⟨rfl, "myapp", "sha256:abc", by decide, by decide,
        rfl⟩)),
   (write_rejection_on_registered_routes .PUT
      ["v2", "myapp", "blobs", "uploads", ""] (Or.inl rfl)).1.mpr
      (Or.inr (Or.inr ⟨rfl, "myapp", by decide, rfl⟩)),
   by decide, rfl, rfl⟩

/-! ## Request handlers (`src/registry.rs`) -/

/-- A response as built by the handlers: status, `Content-Type`, body.
(`Content-Length` is always set to the body length and is left
implicit.) -/
structure ApiResponse where
  status : Nat
  content_type : String
  body : List Nat
deriving DecidableEq, Repr

/-- `handle_get_tags` from `src/registry.rs` (lines 141-162): check
repository access, resolve the repository (absent ⇒ `NotFound`), fetch the
tags from upstream, and answer 200 `application/json` with the body. -/
def handle_get_tags (cfg : Config) (claims : Claims) (repository : String)
    (tokens : List (String × String)) (env : UpstreamEnv) :
    Except ProxyError ApiResponse :=
  match check_repository_access claims repository with
  | .error e => .error e
  | .ok _ =>
      match resolve_repository cfg repository with
      | none => .error (.NotFound ("Repository not mapped: " ++ repository))
      | some resolved =>
          match (upstream_get_tags resolved tokens env).2 with
          | .error e => .error e
          | .ok tags_data => .ok ⟨200, "application/json", tags_data⟩

/-- `handle_get_blob` from `src/registry.rs` (lines 61-102): check access,
resolve, try the cache, and on a miss fetch the blob from upstream and
`put` it into the cache (a `put` failure is only logged; the pure `put` is
total), answering 200 `application/octet-stream` either way. -/
def handle_get_blob (cfg : Config) (ccfg : CacheConfig) (claims : Claims)
    (repository digest : String) (s : CacheState) (now : Int)
    (tokens : List (String × String)) (env : UpstreamEnv) :
    CacheState × Except ProxyError ApiResponse :=
  match check_repository_access claims repository with
  | .error e => (s, .error e)
  | .ok _ =>
      match resolve_repository cfg repository with
      | none =>
          (s, .error (.NotFound ("Repository not mapped: " ++ repository)))
      | some resolved =>
          match cacheGet ccfg s digest now with
          | (s2, some cached_data, _) =>
              (s2, .ok ⟨200, "application/octet-stream", cached_data⟩)
          | (s2, none, _) =>
              match (upstream_get_blob resolved digest tokens env).2 with
              | .error e => (s2, .error e)
              | .ok blob_data =>
                  (cachePut ccfg s2 digest blob_data now,
                   .ok ⟨200, "application/octet-stream", blob_data⟩)

/-! ## Claim C7: upstream error bodies on the tags route -/

/-- Configuration with one mapped repository `app`. -/
def c7cfg : Config :=
  ⟨[⟨"reg1", "https://up.example", none⟩],
   [⟨"app", "reg1", "library/app"⟩]⟩

/-- Claims granting access to every repository. -/
def c7claims : Claims := ⟨"user", none, .All⟩

/-- Environment whose upstream answers the tags request with a 500 error
status and body `[7, 7, 7]`. -/
def c7env : UpstreamEnv :=
  ⟨.ok ⟨500, none, [7, 7, 7]⟩, fun _ => true,
   .ok ⟨200, .ok (some "t", none)⟩, .ok ⟨200, none, []⟩⟩

/-- Counterexample to claim C7 as stated: the upstream answers the
tags-list request with error status 500 and body `[7, 7, 7]`, and the
client receives exactly that raw upstream body, with status 200 —
`get_tags` never checks the response status (`src/upstream.rs`,
lines 84-90). -/
theorem tags_error_body_relayed_counterexample :
    c7env.firstSend = .ok ⟨500, none, [7, 7, 7]⟩
    ∧ handle_get_tags c7cfg c7claims "app" [] c7env =
        .ok ⟨200, "application/json", [7, 7, 7]⟩ :=
  ⟨rfl, rfl⟩

/-- Claim C7 (amended): the proxy's own generated error responses use the
JSON error envelope and never contain upstream bytes, but a tags-list
request whose upstream response has any non-401 status — error statuses
included — is treated as success: the raw upstream body is relayed to the
client with HTTP 200. -/
theorem tags_upstream_error_status_relays_body
    (cfg : Config) (claims : Claims) (repository : String)
    (tokens : List (String × String)) (env : UpstreamEnv)
    (resolved : ResolvedRepository) (status : Nat) (body : List Nat)
    (haccess : claims.access.can_access repository = true)
    (hres : resolve_repository cfg repository = some resolved)
    (henv : env.firstSend = .ok ⟨status, none, body⟩)
    (hstatus : status ≠ 401) :
    handle_get_tags cfg claims repository tokens env =
      .ok ⟨200, "application/json", body⟩ := by
  simp [handle_get_tags, check_repository_access, haccess, hres,
    upstream_get_tags, make_authenticated_request, henv, hstatus]

/-- Witness for the amended claim C7 at the concrete 500 upstream
response. -/
theorem tags_upstream_error_status_relays_body_witness :
    handle_get_tags c7cfg c7claims "app" [] c7env =
      .ok ⟨200, "application/json", [7, 7, 7]⟩ :=
  tags_upstream_error_status_relays_body c7cfg c7claims "app" [] c7env
    ⟨"library/app", "https://up.example", none⟩ 500 [7, 7, 7]
    (by decide) rfl rfl (by decide)

/-! ## Claim C10: the blob cache is keyed by digest alone -/

/-- Claim C10: the blob cache is keyed by the digest only — after a blob
request for repository `r1` misses the cache and populates it from `r1`'s
upstream, a request for the same digest under any other mapped repository
`r2`, authorized by its own token, is served the identical bytes from the
cache; the second handler's result is the same for EVERY upstream
environment `env2`, i.e. `r2`'s upstream is never contacted. -/
theorem blob_cache_shared_across_repositories
    (cfg : Config) (ccfg : CacheConfig) (claims1 claims2 : Claims)
    (r1 r2 digest : String) (s : CacheState) (now1 now2 : Int)
    (tokens1 tokens2 : List (String × String)) (env1 env2 : UpstreamEnv)
    (resolved1 resolved2 : ResolvedRepository) (status1 : Nat) (b : List Nat)
    (h1 : claims1.access.can_access r1 = true)
    (hres1 : resolve_repository cfg r1 = some resolved1)
    (hmiss : kvLookup s.db digest = none)
    (henv1 : env1.firstSend = .ok ⟨status1, none, b⟩)
    (hs1 : status1 ≠ 401) (hs404 : status1 ≠ 404)
    (h2 : claims2.access.can_access r2 = true)
    (hres2 : resolve_repository cfg r2 = some resolved2) :
    (handle_get_blob cfg ccfg claims1 r1 digest s now1 tokens1 env1).2 =
        .ok ⟨200, "application/octet-stream", b⟩
    ∧ (handle_get_blob cfg ccfg claims2 r2 digest
        (handle_get_blob cfg ccfg claims1 r1 digest s now1 tokens1 env1).1
        now2 tokens2 env2).2 =
        .ok ⟨200, "application/octet-stream", b⟩ := by
  have hfirst :
      handle_get_blob cfg ccfg claims1 r1 digest s now1 tokens1 env1 =
        (cachePut ccfg s digest b now1,
         .ok ⟨200, "application/octet-stream", b⟩) := by
    simp [handle_get_blob, check_repository_access, h1, hres1, cacheGet,
      hmiss, upstream_get_blob, make_authenticated_request, henv1, hs1,
      hs404]
  refine ⟨by rw [hfirst], ?_⟩
  rw [hfirst]
  simp [handle_get_blob, check_repository_access, h2, hres2, cacheGet,
    cachePut, kvLookup_insert]

/-- Two registries, two mapped repositories, and tokens that each
authorize only their own repository. -/
def c10cfg : Config :=
  ⟨[⟨"reg1", "https://up1.example", none⟩,
    ⟨"reg2", "https://up2.example", none⟩],
   [⟨"app1", "reg1", "library/one"⟩, ⟨"app2", "reg2", "library/two"⟩]⟩

/-- Token claims authorizing only `app1`. -/
def c10claims1 : Claims := ⟨"u1", none, .Repositories ["app1"]⟩

/-- Token claims authorizing only `app2`. -/
def c10claims2 : Claims := ⟨"u2", none, .Repositories ["app2"]⟩

/-- Upstream of `app1`, delivering the blob bytes `[9, 9]`. -/
def c10env1 : UpstreamEnv :=
  ⟨.ok ⟨200, none, [9, 9]⟩, fun _ => true,
   .ok ⟨200, .ok (some "t", none)⟩, .ok ⟨200, none, []⟩⟩

/-- An environment in which every request fails: if the second blob
request touched any upstream, it could not answer 200 with the bytes. -/
def c10envFail : UpstreamEnv :=
  ⟨.error "connection refused", fun _ => false,
   .error "connection refused", .error "connection refused"⟩

/-- Witness for claim C10: the blob cached while serving `app1` is served
to `app2`'s request from the cache even though `app2`'s upstream refuses
every connection. -/
theorem blob_cache_shared_across_repositories_witness :
    (handle_get_blob c10cfg ⟨"/cache", 1000, 60⟩ c10claims1 "app1"
        "sha256:d" ⟨[], [], 0⟩ 0 [] c10env1).2 =
      .ok ⟨200, "application/octet-stream", [9, 9]⟩
    ∧ (handle_get_blob c10cfg ⟨"/cache", 1000, 60⟩ c10claims2 "app2"
        "sha256:d"
        (handle_get_blob c10cfg ⟨"/cache", 1000, 60⟩ c10claims1 "app1"
          "sha256:d" ⟨[], [], 0⟩ 0 [] c10env1).1
        1 [] c10envFail).2 =
      .ok ⟨200, "application/octet-stream", [9, 9]⟩ :=
  blob_cache_shared_across_repositories c10cfg ⟨"/cache", 1000, 60⟩
    c10claims1 c10claims2 "app1" "app2" "sha256:d" ⟨[], [], 0⟩ 0 1 [] []
    c10env1 c10envFail ⟨"library/one", "https://up1.example", none⟩
    ⟨"library/two", "https://up2.example", none⟩ 200 [9, 9]
    (by decide) rfl rfl rfl (by decide) (by decide) (by decide) rfl
